import Mathlib

/-!
Verification of the A1-notation utilities of the `googlesheets` crate
(`src/util.rs`): the column-name encoder `get_column_notation` and the
range builder `get_a1_notation`.

Rust panics (array indexing out of bounds, and the two explicit `panic!`
calls) are modelled by an `Except` error value so that each distinct
failure condition of the source is observable.
-/

/-- The `ASCII_UPPER` constant of `src/util.rs`: the 26 uppercase letters. -/
def ASCII_UPPER : List Char :=
  ['A', 'B', 'C', 'D', 'E', 'F', 'G', 'H', 'I', 'J', 'K', 'L', 'M',
   'N', 'O', 'P', 'Q', 'R', 'S', 'T', 'U', 'V', 'W', 'X', 'Y', 'Z']

/-- The distinct failure conditions of `src/util.rs`:
`indexOutOfBounds` models a panicking array access `ASCII_UPPER[i]` with
`i >= 26`; `outOfRange` models the explicit
`panic!("Number not supported...")` for columns above 18277; and
`invalidRangeShape` models the explicit
`panic!("The specified range is not valid")` of the range builder. -/
inductive SheetsError where
  | indexOutOfBounds
  | outOfRange
  | invalidRangeShape
deriving DecidableEq, Repr

/-- The Rust indexing expression `ASCII_UPPER[i]`: the character when
`i < 26`, an index-out-of-bounds panic otherwise. -/
def asciiUpper (i : Nat) : Except SheetsError Char :=
  match ASCII_UPPER.get? i with
  | some c => Except.ok c
  | none => Except.error SheetsError.indexOutOfBounds

/-- `get_column_notation` of `src/util.rs`, branch for branch.  Rust
`usize` division and remainder are Nat division and remainder; the
subtraction `26 - (column / 26 / 26) % 26` cannot underflow since the
remainder is below 26, so Nat subtraction is faithful. -/
def get_column_notation (column : Nat) : Except SheetsError String :=
  if column < 26 then
    match asciiUpper column with
    | Except.ok c => Except.ok (String.mk [c])
    | Except.error e => Except.error e
  else if column < 702 then
    match asciiUpper (column / 26 - 1) with
    | Except.ok one =>
      match asciiUpper (column % 26) with
      | Except.ok two => Except.ok (String.mk [one, two])
      | Except.error e => Except.error e
    | Except.error e => Except.error e
  else if column ≤ 18277 then
    let first := if 26 ≤ column / 26 / 26
      then 26 - (column / 26 / 26) % 26
      else column / 26 / 26 - 1
    match asciiUpper first with
    | Except.ok one =>
      match asciiUpper ((column / 26 - 1) % 26) with
      | Except.ok two =>
        match asciiUpper (column % 26) with
        | Except.ok three => Except.ok (String.mk [one, two, three])
        | Except.error e => Except.error e
      | Except.error e => Except.error e
    | Except.error e => Except.error e
  else Except.error SheetsError.outOfRange

/-- `get_a1_notation` of `src/util.rs`.  The Rust `match` arms are kept in
source order (Lean `match` also commits to the first matching arm), the
or-pattern of the first arm is expanded into two arms with the same body,
and the `format!` calls evaluate `get_column_notation` left to right, so a
panic in the start column pre-empts one in the end column. -/
def get_a1_notation (start_column start_row end_column end_row : Option Nat) :
    Except SheetsError String :=
  match start_column, start_row, end_column, end_row with
  | some sc, some r, some ec, none =>
    match get_column_notation sc with
    | Except.ok a =>
      match get_column_notation ec with
      | Except.ok b => Except.ok (a ++ toString (r + 1) ++ ":" ++ b)
      | Except.error e => Except.error e
    | Except.error e => Except.error e
  | some sc, none, some ec, some r =>
    match get_column_notation sc with
    | Except.ok a =>
      match get_column_notation ec with
      | Except.ok b => Except.ok (a ++ toString (r + 1) ++ ":" ++ b)
      | Except.error e => Except.error e
    | Except.error e => Except.error e
  | some sc, some sr, some ec, some er =>
    match get_column_notation sc with
    | Except.ok a =>
      match get_column_notation ec with
      | Except.ok b =>
        Except.ok (a ++ toString (sr + 1) ++ ":" ++ b ++ toString (er + 1))
      | Except.error e => Except.error e
    | Except.error e => Except.error e
  | some sc, _, some ec, _ =>
    match get_column_notation sc with
    | Except.ok a =>
      match get_column_notation ec with
      | Except.ok b => Except.ok (a ++ ":" ++ b)
      | Except.error e => Except.error e
    | Except.error e => Except.error e
  | none, some sr, possible_column, some er =>
    match possible_column with
    | some column =>
      match get_column_notation column with
      | Except.ok b =>
        Except.ok (toString (sr + 1) ++ ":" ++ b ++ toString (er + 1))
      | Except.error e => Except.error e
    | none => Except.ok (toString (sr + 1) ++ ":" ++ toString (er + 1))
  | _, _, _, _ => Except.error SheetsError.invalidRangeShape

/-- Modelled from the spec: the bijective base-26 column name, stated as
the spec states it — indices `[0, 25]` give the 1-letter names `A`..`Z`,
`[26, 701]` the 2-letter names `AA`..`ZZ` in order, `[702, 18277]` the
3-letter names `AAA`..`ZZZ` in order.  This is the comparison point for
the claim that the code implements exactly this numbering; it is not part
of the source. -/
def specColumnName (c : Nat) : String :=
  if c < 26 then
    String.mk [Char.ofNat (65 + c)]
  else if c < 702 then
    String.mk [Char.ofNat (65 + (c - 26) / 26), Char.ofNat (65 + (c - 26) % 26)]
  else
    String.mk [Char.ofNat (65 + (c - 702) / 676),
               Char.ofNat (65 + ((c - 702) / 26) % 26),
               Char.ofNat (65 + (c - 702) % 26)]

/-- Verification helper (not part of the source): an inverse of the
encoder on its successful outputs, used to establish injectivity. -/
def charIdx (c : Char) : Nat := c.toNat - 65

/-- Verification helper (not part of the source): decode a produced
column name back to a column index. -/
def decodeCol (s : String) : Option Nat :=
  match s.data with
  | [a] => some (charIdx a)
  | [a, b] => some (26 * (charIdx a + 1) + charIdx b)
  | [a, b, c] =>
    let q := if charIdx a = 25 then 27 else charIdx a + 1
    some (676 * q + 26 * ((charIdx b + 1) % 26) + charIdx c)
  | _ => none

/-- The shapes of optional coordinates recognized by the range builder:
the six `match` arms of `get_a1_notation` before the catch-all. -/
def recognizedShape (sc sr ec er : Option Nat) : Bool :=
  match sc, sr, ec, er with
  | some _, some _, some _, none => true
  | some _, none, some _, some _ => true
  | some _, some _, some _, some _ => true
  | some _, none, some _, none => true
  | none, some _, some _, some _ => true
  | none, some _, none, some _ => true
  | _, _, _, _ => false

theorem asciiUpper_lt (i : Nat) (h : i < 26) :
    asciiUpper i = Except.ok (Char.ofNat (65 + i)) := by
  interval_cases i <;> rfl

theorem asciiUpper_ge (i : Nat) (h : 26 ≤ i) :
    asciiUpper i = Except.error SheetsError.indexOutOfBounds := by
  unfold asciiUpper
  have : ASCII_UPPER.get? i = none := by
    apply List.get?_eq_none.mpr
    simpa [ASCII_UPPER] using h
  rw [this]

theorem charIdx_ofNat (i : Nat) (h : i < 26) :
    charIdx (Char.ofNat (65 + i)) = i := by
  interval_cases i <;> rfl

theorem gcn_branch1 (c : Nat) (h : c < 26) :
    get_column_notation c = Except.ok (String.mk [Char.ofNat (65 + c)]) := by
  unfold get_column_notation
  rw [if_pos h, asciiUpper_lt c h]

theorem gcn_branch2 (c : Nat) (h1 : 26 ≤ c) (h2 : c < 702) :
    get_column_notation c =
      Except.ok (String.mk [Char.ofNat (65 + (c / 26 - 1)), Char.ofNat (65 + c % 26)]) := by
  unfold get_column_notation
  have hd : c / 26 - 1 < 26 := by omega
  have hm : c % 26 < 26 := by omega
  rw [if_neg (by omega), if_pos h2, asciiUpper_lt _ hd, asciiUpper_lt _ hm]

theorem gcn_branch3_nowrap (c : Nat) (h1 : 702 ≤ c) (hq : c / 26 / 26 < 26) :
    get_column_notation c =
      Except.ok (String.mk [Char.ofNat (65 + (c / 26 / 26 - 1)),
        Char.ofNat (65 + (c / 26 - 1) % 26), Char.ofNat (65 + c % 26)]) := by
  unfold get_column_notation
  have hle : c ≤ 18277 := by omega
  have hf : c / 26 / 26 - 1 < 26 := by omega
  rw [if_neg (by omega), if_neg (by omega), if_pos hle]
  simp only [if_neg (by omega : ¬ 26 ≤ c / 26 / 26)]
  rw [asciiUpper_lt _ hf, asciiUpper_lt _ (by omega : (c / 26 - 1) % 26 < 26),
      asciiUpper_lt _ (by omega : c % 26 < 26)]

theorem gcn_branch3_q26 (c : Nat) (hq : c / 26 / 26 = 26) :
    get_column_notation c = Except.error SheetsError.indexOutOfBounds := by
  unfold get_column_notation
  have h1 : 702 ≤ c := by omega
  have hle : c ≤ 18277 := by omega
  rw [if_neg (by omega), if_neg (by omega), if_pos hle]
  simp only [hq]
  norm_num
  rw [asciiUpper_ge 26 (by omega)]

theorem gcn_branch3_q27 (c : Nat) (hq : c / 26 / 26 = 27) (hle : c ≤ 18277) :
    get_column_notation c =
      Except.ok (String.mk [Char.ofNat 90,
        Char.ofNat (65 + (c / 26 - 1) % 26), Char.ofNat (65 + c % 26)]) := by
  unfold get_column_notation
  have h1 : 702 ≤ c := by omega
  rw [if_neg (by omega), if_neg (by omega), if_pos hle]
  simp only [hq]
  norm_num
  rw [asciiUpper_lt 25 (by omega),
      asciiUpper_lt _ (by omega : (c / 26 - 1) % 26 < 26),
      asciiUpper_lt _ (by omega : c % 26 < 26)]

theorem gcn_over (c : Nat) (h : 18277 < c) :
    get_column_notation c = Except.error SheetsError.outOfRange := by
  unfold get_column_notation
  have hq : ¬ c / 26 / 26 < 26 := by omega
  rw [if_neg (by omega), if_neg (by omega), if_neg (by omega)]

theorem decodeCol_ok (c : Nat) (s : String) (h : get_column_notation c = Except.ok s) :
    decodeCol s = some c := by
  by_cases h1 : c < 26
  · rw [gcn_branch1 c h1] at h
    have hs := Except.ok.inj h
    subst hs
    simp [decodeCol, charIdx_ofNat c h1]
  · by_cases h2 : c < 702
    · rw [gcn_branch2 c (by omega) h2] at h
      have hs := Except.ok.inj h
      subst hs
      simp only [decodeCol, charIdx_ofNat _ (by omega : c / 26 - 1 < 26),
        charIdx_ofNat _ (by omega : c % 26 < 26)]
      have : 26 * (c / 26 - 1 + 1) + c % 26 = c := by omega
      rw [this]
    · by_cases h3 : c ≤ 18277
      · have hqle : c / 26 / 26 ≤ 27 := by omega
        by_cases hq : c / 26 / 26 < 26
        · rw [gcn_branch3_nowrap c (by omega) hq] at h
          have hs := Except.ok.inj h
          subst hs
          simp only [decodeCol, charIdx_ofNat _ (by omega : c / 26 / 26 - 1 < 26),
            charIdx_ofNat _ (by omega : (c / 26 - 1) % 26 < 26),
            charIdx_ofNat _ (by omega : c % 26 < 26)]
          rw [if_neg (by omega : ¬ c / 26 / 26 - 1 = 25)]
          have : 676 * (c / 26 / 26 - 1 + 1) + 26 * (((c / 26 - 1) % 26 + 1) % 26) + c % 26 = c := by
            omega
          rw [this]
        · by_cases hq26 : c / 26 / 26 = 26
          · rw [gcn_branch3_q26 c hq26] at h
            exact Except.noConfusion h
          · have hq27 : c / 26 / 26 = 27 := by omega
            rw [gcn_branch3_q27 c hq27 h3] at h
            have hs := Except.ok.inj h
            subst hs
            have h90 : charIdx (Char.ofNat 90) = 25 := by decide
            simp only [decodeCol, h90,
              charIdx_ofNat _ (by omega : (c / 26 - 1) % 26 < 26),
              charIdx_ofNat _ (by omega : c % 26 < 26)]
            norm_num
            omega
      · rw [gcn_over c (by omega)] at h
        exact Except.noConfusion h

/-- C1: the claim says `get_column_notation` is total on `[0, 18277]` and
fails only above that bound, but the code indexes `ASCII_UPPER[26]` out of
bounds at column 17576 (there `column / 26 / 26 = 26`, so the carry branch
computes `26 - 26 % 26 = 26`): a valid input inside the claimed domain
panics with an index-out-of-bounds error rather than returning a string. -/
theorem encode_column_index_out_of_bounds_at_17576 :
    get_column_notation 17576 = Except.error SheetsError.indexOutOfBounds :=
  gcn_branch3_q26 17576 (by norm_num)

/-- C2: the claim says the encoder realizes exactly the bijective base-26
(Excel) column naming, but at column 1352 the code returns "BZA" while the
bijective base-26 name of index 1352 is "AZA" (the carry-correction is off
by one whole letter whenever `column / 676` is in `[2, 25]` and
`column % 676 < 26`). -/
theorem encode_column_differs_from_bijective_base26 :
    get_column_notation 1352 = Except.ok "BZA" ∧ specColumnName 1352 = "AZA" :=
  ⟨rfl, rfl⟩

/-- C3: the encoder is injective on the valid domain — no two distinct
column indices in `[0, 18277]` ever produce the same notation string. -/
theorem encode_column_injective (c1 c2 : Nat) (_h1 : c1 ≤ 18277) (_h2 : c2 ≤ 18277)
    (hne : c1 ≠ c2) (s1 s2 : String)
    (e1 : get_column_notation c1 = Except.ok s1)
    (e2 : get_column_notation c2 = Except.ok s2) : s1 ≠ s2 := by
  intro heq
  subst heq
  have d1 := decodeCol_ok c1 s1 e1
  have d2 := decodeCol_ok c2 s1 e2
  rw [d1] at d2
  exact hne (Option.some.inj d2)

theorem encode_column_injective_witness : ("A" : String) ≠ "B" :=
  encode_column_injective 0 1 (by norm_num) (by norm_num) (by norm_num) "A" "B" rfl rfl

/-- C4: the worked examples — columns 0, 25, 26, 27, 701, 702 and 18277
encode to "A", "Z", "AA", "AB", "ZZ", "AAA" and "ZZZ" respectively. -/
theorem encode_column_examples :
    get_column_notation 0 = Except.ok "A" ∧
    get_column_notation 25 = Except.ok "Z" ∧
    get_column_notation 26 = Except.ok "AA" ∧
    get_column_notation 27 = Except.ok "AB" ∧
    get_column_notation 701 = Except.ok "ZZ" ∧
    get_column_notation 702 = Except.ok "AAA" ∧
    get_column_notation 18277 = Except.ok "ZZZ" :=
  ⟨rfl, rfl, rfl, rfl, rfl, rfl, rfl⟩

/-- C5: every column index above 18277 makes the encoder fail with the
out-of-range condition; it never clamps or wraps, and no string of any
kind is returned. -/
theorem encode_column_out_of_range (c : Nat) (h : 18277 < c) :
    get_column_notation c = Except.error SheetsError.outOfRange ∧
    ∀ s : String, get_column_notation c ≠ Except.ok s := by
  refine ⟨gcn_over c h, fun s hs => ?_⟩
  rw [gcn_over c h] at hs
  exact Except.noConfusion hs

theorem encode_column_out_of_range_witness :
    18277 < 18278 ∧ get_column_notation 18278 = Except.error SheetsError.outOfRange :=
  ⟨by norm_num, (encode_column_out_of_range 18278 (by norm_num)).1⟩

/-- C6: the two alias shapes `(Some sc, Some r, Some ec, None)` and
`(Some sc, None, Some ec, Some r)` both render the down-the-column range
string `col(sc) ++ (r+1) ++ ":" ++ col(ec)`, and this case wins over the
whole-column case, as the concrete outputs "A1:A" on both shapes show. -/
theorem build_range_down_column_aliases :
    (∀ (sc r ec : Nat) (s1 s2 : String),
      get_column_notation sc = Except.ok s1 →
      get_column_notation ec = Except.ok s2 →
      get_a1_notation (some sc) (some r) (some ec) none =
        Except.ok (s1 ++ toString (r + 1) ++ ":" ++ s2) ∧
      get_a1_notation (some sc) none (some ec) (some r) =
        Except.ok (s1 ++ toString (r + 1) ++ ":" ++ s2)) ∧
    get_a1_notation (some 0) (some 0) (some 0) none = Except.ok "A1:A" ∧
    get_a1_notation (some 0) none (some 0) (some 0) = Except.ok "A1:A" := by
  refine ⟨fun sc r ec s1 s2 e1 e2 => ?_, rfl, rfl⟩
  constructor <;> (simp only [ get_a1_notation]; rw [e1, e2])

theorem build_range_down_column_aliases_witness :
    get_a1_notation (some 5) (some 2) (some 30) none =
      Except.ok ("F" ++ toString (2 + 1) ++ ":" ++ "AE") :=
  (build_range_down_column_aliases.1 5 2 30 "F" "AE" rfl rfl).1

/-- C7: the fully bounded shape renders
`col(sc) ++ (sr+1) ++ ":" ++ col(ec) ++ (er+1)` with rows shifted from
zero-indexed input to one-indexed output, as in "A2:B5" and "A1:A1". -/
theorem build_range_rectangular :
    (∀ (sc sr ec er : Nat) (s1 s2 : String),
      get_column_notation sc = Except.ok s1 →
      get_column_notation ec = Except.ok s2 →
      get_a1_notation (some sc) (some sr) (some ec) (some er) =
        Except.ok (s1 ++ toString (sr + 1) ++ ":" ++ s2 ++ toString (er + 1))) ∧
    get_a1_notation (some 0) (some 1) (some 1) (some 4) = Except.ok "A2:B5" ∧
    get_a1_notation (some 0) (some 0) (some 0) (some 0) = Except.ok "A1:A1" := by
  refine ⟨fun sc sr ec er s1 s2 e1 e2 => ?_, rfl, rfl⟩
  simp only [ get_a1_notation]
  rw [e1, e2]

theorem build_range_rectangular_witness :
    get_a1_notation (some 0) (some 1) (some 1) (some 4) =
      Except.ok ("A" ++ toString (1 + 1) ++ ":" ++ "B" ++ toString (4 + 1)) :=
  build_range_rectangular.1 0 1 1 4 "A" "B" rfl rfl

/-- C8: the remaining recognized shapes — whole columns
`(Some sc, None, Some ec, None)` gives `col(sc) ++ ":" ++ col(ec)`, a row
range with a column floor `(None, Some sr, Some ec, Some er)` gives
`(sr+1) ++ ":" ++ col(ec) ++ (er+1)`, and whole rows
`(None, Some sr, None, Some er)` give `(sr+1) ++ ":" ++ (er+1)` — as in
"A:D", "10:D18" and "10:18". -/
theorem build_range_remaining_shapes :
    (∀ (sc ec : Nat) (s1 s2 : String),
      get_column_notation sc = Except.ok s1 →
      get_column_notation ec = Except.ok s2 →
      get_a1_notation (some sc) none (some ec) none = Except.ok (s1 ++ ":" ++ s2)) ∧
    (∀ (sr ec er : Nat) (s2 : String),
      get_column_notation ec = Except.ok s2 →
      get_a1_notation none (some sr) (some ec) (some er) =
        Except.ok (toString (sr + 1) ++ ":" ++ s2 ++ toString (er + 1))) ∧
    (∀ sr er : Nat,
      get_a1_notation none (some sr) none (some er) =
        Except.ok (toString (sr + 1) ++ ":" ++ toString (er + 1))) ∧
    get_a1_notation (some 0) none (some 3) none = Except.ok "A:D" ∧
    get_a1_notation none (some 9) (some 3) (some 17) = Except.ok "10:D18" ∧
    get_a1_notation none (some 9) none (some 17) = Except.ok "10:18" := by
  refine ⟨fun sc ec s1 s2 e1 e2 => ?_, fun sr ec er s2 e2 => ?_,
    fun sr er => rfl, rfl, rfl, rfl⟩
  · simp only [ get_a1_notation]
    rw [e1, e2]
  · simp only [ get_a1_notation]
    rw [e2]

theorem build_range_remaining_shapes_witness :
    get_a1_notation (some 0) none (some 3) none = Except.ok ("A" ++ ":" ++ "D") :=
  build_range_remaining_shapes.1 0 3 "A" "D" rfl rfl

/-- C9: every tuple of optional coordinates outside the six recognized
shapes makes the range builder fail with the invalid-range condition — a
distinct typed failure, so no string (empty, default or otherwise) is ever
returned for such tuples. -/
theorem build_range_invalid_shape (sc sr ec er : Option Nat)
    (h : recognizedShape sc sr ec er = false) :
    get_a1_notation sc sr ec er = Except.error SheetsError.invalidRangeShape := by
  rcases sc with _ | sc <;> rcases sr with _ | sr <;> rcases ec with _ | ec <;>
    rcases er with _ | er <;> first | rfl | simp [recognizedShape] at h

theorem build_range_invalid_shape_witness :
    recognizedShape none none none none = false ∧
    get_a1_notation none none none none = Except.error SheetsError.invalidRangeShape :=
  ⟨rfl, build_range_invalid_shape none none none none rfl⟩

/-- C10: when a recognized shape must render a column index above 18277,
the encoder's out-of-range failure propagates through the range builder:
on the whole-column shape with an oversized start column the result is the
out-of-range error and never a notation string. -/
theorem build_range_propagates_out_of_range (sc ec : Nat) (h : 18277 < sc) :
    get_a1_notation (some sc) none (some ec) none = Except.error SheetsError.outOfRange ∧
    ∀ s : String, get_a1_notation (some sc) none (some ec) none ≠ Except.ok s := by
  have he : get_a1_notation (some sc) none (some ec) none =
      Except.error SheetsError.outOfRange := by
    simp only [ get_a1_notation]
    rw [gcn_over sc h]
  refine ⟨he, fun s hs => ?_⟩
  rw [he] at hs
  exact Except.noConfusion hs

theorem build_range_propagates_out_of_range_witness :
    18277 < 18278 ∧
    get_a1_notation (some 18278) none (some 0) none =
      Except.error SheetsError.outOfRange :=
  ⟨by norm_num, (build_range_propagates_out_of_range 18278 0 (by norm_num)).1⟩
